import Mathlib

/-!
Verification of the orbitdeterminator estimation-pipeline specification
against the sources `testcases/Alexandros code/final_init.py` and
`orbitdeterminator/doppler/utils/utils_vis.py`.

Numeric values are embedded as rationals (`ℚ`); numpy 2-D arrays are
row-major lists of lists, and (6, n) state-history arrays are modelled as
lists of n columns of 6 entries.  Python functions that can raise are
embedded in `Except`/`Option`.
-/

namespace OrbitDet

/-- A row of a positional track in the `(Time, x, y, z)` format that
`final_init.mainf` consumes. -/
structure Row where
  t : ℚ
  x : ℚ
  y : ℚ
  z : ℚ
deriving DecidableEq, Repr, Inhabited

/-- A track is an ordered list of rows, embedding the numpy `(n, 4)` data
array of `mainf`. -/
abbrev Track := List Row

/-- A numpy 2-D array as a row-major list of rows. -/
abbrev Mat := List (List ℚ)

/-- `np.transpose` on a 2-D array. -/
def np_transpose (m : Mat) : Mat := List.transpose m

/-- A six-component state vector (position and velocity), the shape of the
value `np.ravel(rkf78.rkf78 ...)` stores into a column of `keep_state`. -/
def State := Fin 6 → ℚ

/-- Error raised inside a matplotlib rendering call. -/
inductive RenderError where
  | fail
deriving DecidableEq, Repr

/-- The collaborator functions `mainf` calls.  `load_data`,
`generate_filtered_data` (triple moving average), `golay`, `create_kep`,
`kalman`, `Kep_state` and `rkf78` live in modules that are imported by
`final_init.py`; `mainf` only composes them, so they are fields here.
`sqrt` models the scalar `** 0.5` used for `|r|` and `|v|`; `render_orbit`
and `render_rv` model the two matplotlib figure/`plt.show()` blocks, which
may raise. -/
structure Pipeline where
  load_data : String → Track
  generate_filtered_data : Track → Nat → Track
  golay : Track → Nat → Track
  create_kep : Track → Mat
  kalman : Mat → Mat
  Kep_state : Mat → State
  rkf78 : Nat → ℚ → ℚ → ℚ → ℚ → State → State
  sqrt : ℚ → ℚ
  render_orbit : Track → Track → List (ℚ × ℚ × ℚ) → Except RenderError Unit
  render_rv : List ℚ → List ℚ → List ℚ → Except RenderError Unit

/-- The `for i in range(0, 20)` propagation loop of `mainf`, one fuel step
per iteration: each iteration stores `rkf78(6, ti, tf, h, tetol, x)` and the
current `tf` (into `keep_state[:, i]` and `t_hold[i, 0]`), then advances
`tf` by 100.  `ti = 0.0`, `h = 1.0`, `tetol = 1e-04` and `x` are loop
constants; `x` is never reassigned. -/
def propGo (rkf78 : Nat → ℚ → ℚ → ℚ → ℚ → State → State) (x : State) :
    Nat → ℚ → List (State × ℚ)
  | 0, _ => []
  | n + 1, tf => (rkf78 6 0 tf 1 (1 / 10000) x, tf) :: propGo rkf78 x n (tf + 100)

/-- The difference table of `mainf` lines 69-71: `dif[:, 1:4]` is the
row-by-row difference of the coordinate columns and `dif[:, 0]` copies the
time column of `my_data`. -/
def dif_rows (a b : Track) : List Row :=
  List.zipWith (fun ra rb => { t := ra.t, x := ra.x - rb.x, y := ra.y - rb.y, z := ra.z - rb.z }) a b

/-- Shallow embedding of `final_init.mainf`.  The stages run in the source
order: `read_data.load_data`, `tripple_moving_average.generate_filtered_data`
(window 3, rebinding `my_data`), `golay_filter.golay`, `orbit_fit.create_kep`
on the filtered data, `orbit_fit.kalman`, `np.transpose`; then `kep_state`,
the 20-step `rkf78` loop, the difference table, and the two plotting blocks
(whose exceptions propagate), before `kep_final` is returned. -/
def mainf (P : Pipeline) (datafile : String) (window : Nat) : Except RenderError Mat :=
  let my_data := P.load_data datafile
  let my_data := P.generate_filtered_data my_data 3
  let my_data_filt := P.golay my_data window
  let kep := P.create_kep my_data_filt
  let kep_final := np_transpose (P.kalman kep)
  let state := P.Kep_state kep_final
  let loop := propGo P.rkf78 state 20 100
  let keep_state := loop.map Prod.fst
  let t_hold := loop.map Prod.snd
  let positions := keep_state.map (fun s => (s 0, s 1, s 2))
  let _dif := dif_rows my_data my_data_filt
  do
    P.render_orbit my_data my_data_filt positions
    let r := keep_state.map (fun s => P.sqrt (s 0 ^ 2 + s 1 ^ 2 + s 2 ^ 2))
    let v := keep_state.map (fun s => P.sqrt (s 3 ^ 2 + s 4 ^ 2 + s 5 ^ 2))
    P.render_rv t_hold r v
    return kep_final

/-- A concrete pipeline instance whose rendering calls succeed. -/
def P0 : Pipeline where
  load_data := fun _ => []
  generate_filtered_data := fun d _ => d
  golay := fun d _ => d
  create_kep := fun _ => []
  kalman := fun _ => [[1, 0, 0, 0, 0, 0]]
  Kep_state := fun _ _ => 0
  rkf78 := fun _ _ _ _ _ x => x
  sqrt := fun q => q
  render_orbit := fun _ _ _ => .ok ()
  render_rv := fun _ _ _ => .ok ()

/-- A concrete pipeline instance whose first rendering call raises. -/
def Pbad : Pipeline :=
  { P0 with render_orbit := fun _ _ _ => .error .fail }

/-- Error raised by the Smoother on an invalid window. -/
inductive SmootherError where
  | InvalidWindow
deriving DecidableEq, Repr

/-- The sliding window of half-width `w / 2` centred at index `i`, truncated
at the track edges (the spec allows truncated/asymmetric edge windows). -/
def windowAt (xs : List ℚ) (i w : Nat) : List ℚ :=
  let h := w / 2
  let lo := i - h
  let hi := min (i + h) (xs.length - 1)
  (xs.drop lo).take (hi + 1 - lo)

/-- Modelled from the spec: `golay_filter.golay` is not under src/.  Per the
spec (§4.1), the Smoother fails with `InvalidWindow` when `w` is even,
`w < 5`, or `w` exceeds the track length, and otherwise returns a track of
the same length and timestamps whose x/y/z values are smoothed by a local
degree-≤3 least-squares fit on each centred window; the numeric fit kernel
(window values ↦ smoothed centre value) is abstracted as the parameter
`fit`. -/
def golay (fit : List ℚ → ℚ) (track : Track) (w : Nat) : Except SmootherError Track :=
  if w % 2 = 0 ∨ w < 5 ∨ track.length < w then .error .InvalidWindow
  else .ok ((List.range track.length).map (fun i =>
    { t := (track.getD i default).t
      x := fit (windowAt (track.map Row.x) i w)
      y := fit (windowAt (track.map Row.y) i w)
      z := fit (windowAt (track.map Row.z) i w) }))

/-- The six Keplerian elements, in the order `mainf` documents and displays
them. -/
structure KepElements where
  a : ℚ
  e : ℚ
  i : ℚ
  argp : ℚ
  raan : ℚ
  v : ℚ
deriving DecidableEq, Repr

/-- Modelled from the spec: `orbit_fit.kalman` is not under src/.  Per the
spec (§4.4, the Sequential Refiner "returns the final KeplerianElements")
and the `mainf` docstring and display code, its result is a 1×6 row holding,
in order, semi-major axis (km), eccentricity, inclination, argument of
perigee, right ascension of the ascending node and true anomaly (degrees). -/
def kep_row (k : KepElements) : Mat :=
  [[k.a, k.e, k.i, k.argp, k.raan, k.v]]

/-- The row labels `mainf` attaches to its final 6×1 result (source lines
85-88), embedded verbatim, typo included. -/
def mainf_display_labels : List String :=
  ["Semi major axis (km)", "Eccentricity (float number)", "Inclination (degrees)",
   "Argument of perigee (degrees)", "Right ascension of the ascending node (degrees)",
   "True anomally (degrees)"]

/-- A display label made of a quantity name and its unit annotation. -/
def labelled (name unit : String) : String :=
  name ++ " (" ++ unit ++ ")"

/-- A column of a numpy `(6, n)` (or `(3, n)`) state-history array; such
arrays are modelled as lists of their n columns. -/
abbrev Col := List ℚ

/-- A matplotlib artist produced by a plotting call; our embedding of the
plotting functions records the list of artists drawn. -/
inductive Artist where
  | scatterPts (pts : List (ℚ × ℚ × ℚ)) (color : String) (size : ℚ) (marker : String)
  | linePts (pts : List (ℚ × ℚ × ℚ)) (color : String)
  | plot2 (xs ys : List ℚ)
deriving DecidableEq, Repr

/-- The first three entries of a column, the `x[0, i], x[1, i], x[2, i]`
coordinates scattered by the plotting code. -/
def col_xyz (c : Col) : ℚ × ℚ × ℚ := (c.getD 0 0, c.getD 1 0, c.getD 2 0)

/-- The squared euclidean norm of a column. -/
def norm_sq (c : Col) : ℚ := (c.map (fun q => q * q)).sum

/-- Models the comparison `np.linalg.norm c < thr` for a nonnegative
threshold by comparing squared norms (rationals have no exact square
root). -/
def norm_lt (c : Col) (thr : ℚ) : Bool := decide (norm_sq c < thr ^ 2)

/-- The candidate loop of `plot_batch_results` (source lines 208-211): for
each index `i` in `range(x_0r.shape[1])`, the pre-batch position
`x_0r[:, i]` and the post-batch estimate `x_br[:, i]` are scattered exactly
when `x_berr_norm[i] < 100000`; the threshold is the 100000 literal of the
source, not the `norm_mask` threshold. -/
def batch_scatters (x_0r x_br x_berr : List Col) : List Artist :=
  (List.range x_0r.length).foldr (fun i acc =>
    if norm_lt (x_berr.getD i []) 100000 then
      Artist.scatterPts [col_xyz (x_0r.getD i [])] "b" 40 "x" ::
      Artist.scatterPts [col_xyz (x_br.getD i [])] "r" 20 "o" :: acc
    else acc) []

/-- Embedding of `plot_batch_results` with the threshold of the dead
`norm_mask` binding (5000 in the source) exposed as `maskThr`: the
groundtruth scatter, the `norm_mask` computation (bound but never read, as
in the source), the 4-sample groundtruth trajectory and its proxy, the
candidate loop, and the two legend proxies. -/
def plot_batch_results_gen (maskThr : ℚ) (x_sat x_0r x_br x_berr : List Col) : List Artist :=
  let gt := Artist.scatterPts [col_xyz (x_sat.getD 0 [])] "r" 10 "x"
  let norm_mask := (List.range x_berr.length).map (fun i => norm_lt (x_berr.getD i []) maskThr)
  let traj := Artist.linePts ((x_sat.take 4).map col_xyz) "k"
  let traj_proxy := Artist.scatterPts [col_xyz (x_sat.getD 0 [])] "k" 10 "o"
  let s1_proxy := Artist.scatterPts [col_xyz (x_0r.getD 0 [])] "b" 40 "x"
  let s2_proxy := Artist.scatterPts [col_xyz (x_br.getD 1 [])] "r" 20 "o"
  gt :: traj :: traj_proxy :: (batch_scatters x_0r x_br x_berr ++ [s1_proxy, s2_proxy])

/-- `plot_batch_results` exactly as in the source: the dead mask uses the
5000 literal. -/
def plot_batch_results (x_sat x_0r x_br x_berr : List Col) : List Artist :=
  plot_batch_results_gen 5000 x_sat x_0r x_br x_berr

/-- A numpy n-dimensional array: a shape and an index map. -/
structure NDArray where
  shape : List Nat
  data : List Nat → ℚ

/-- Error raised by a numpy call. -/
inductive PyError where
  | typeError
deriving DecidableEq, Repr

/-- `np.expand_dims`, with numpy's required `axis` argument modelled as an
`Option`: the source files call `np.expand_dims(x_obs_multiple)` with the
axis missing, which numpy rejects with a `TypeError` (missing required
positional argument). -/
def np_expand_dims (a : NDArray) (axis : Option Nat) : Except PyError NDArray :=
  match axis with
  | none => .error .typeError
  | some ax =>
      .ok { shape := a.shape.take ax ++ 1 :: a.shape.drop ax
            data := fun idx => a.data (idx.take ax ++ idx.drop (ax + 1)) }

/-- Entry `a[i, j, k]` of a 3-D array. -/
def at3 (a : NDArray) (i j k : Nat) : ℚ := a.data [i, j, k]

/-- The `x_obs_multiple[:, :, i]` slice. -/
def slice_obs (a : NDArray) (i : Nat) : NDArray :=
  { shape := a.shape.take 2, data := fun idx => a.data (idx ++ [i]) }

/-- Embedding of `plot_example_3d`: the font and figure setup draw nothing;
the "dimension fix" calls `np.expand_dims` without an axis whenever the
observer array is 2-dimensional; afterwards each observer's trajectory and
start point, then the satellite start point and trajectory, are
scattered. -/
def plot_example_3d (x_sat_orbdyn_stm x_obs_multiple : NDArray) :
    Except PyError (List Artist) := do
  let x_obs ← if x_obs_multiple.shape.length = 2 then np_expand_dims x_obs_multiple none
              else pure x_obs_multiple
  let n := x_obs.shape.getD 1 0
  let nObs := x_obs.shape.getD 2 0
  let obsArtists := (List.range nObs).bind (fun i =>
    [Artist.scatterPts ((List.range n).map
        (fun j => (at3 x_obs 0 j i, at3 x_obs 1 j i, at3 x_obs 2 j i))) "" 4 ".",
     Artist.scatterPts [(at3 x_obs 0 0 i, at3 x_obs 1 0 i, at3 x_obs 2 0 i)] "" 20 "o"])
  let nSat := x_sat_orbdyn_stm.shape.getD 1 0
  let satStart := Artist.scatterPts
    [(x_sat_orbdyn_stm.data [0, 0], x_sat_orbdyn_stm.data [1, 0],
      x_sat_orbdyn_stm.data [2, 0])] "k" 20 "o"
  let satTraj := Artist.scatterPts ((List.range nSat).map
    (fun j => (x_sat_orbdyn_stm.data [0, j], x_sat_orbdyn_stm.data [1, j],
      x_sat_orbdyn_stm.data [2, j]))) "k" 1 "."
  pure (obsArtists ++ [satStart, satTraj])

/-- Embedding of `plot_range_range_rate`: the same axis-less "dimension fix"
on 2-D observer arrays, then per observer a range plot and a range-rate
plot over `t_sec`.  `utils.range_range_rate` lives in a module that is not
under src/, so it is abstracted as the parameter `rrr`. -/
def plot_range_range_rate (rrr : NDArray → NDArray → List ℚ × List ℚ)
    (x_sat_orbdyn_stm x_obs_multiple : NDArray) (t_sec : List ℚ) :
    Except PyError (List Artist) := do
  let x_obs ← if x_obs_multiple.shape.length = 2 then np_expand_dims x_obs_multiple none
              else pure x_obs_multiple
  let nObs := x_obs.shape.getD 2 0
  pure ((List.range nObs).bind (fun i =>
    let p := rrr x_sat_orbdyn_stm (slice_obs x_obs i)
    [Artist.plot2 t_sec p.1, Artist.plot2 t_sec p.2]))

/-- A concrete 2-dimensional observer array. -/
def obs2d : NDArray := { shape := [3, 4], data := fun _ => 0 }

/-- A concrete satellite trajectory array. -/
def sat3d : NDArray := { shape := [6, 4], data := fun _ => 0 }

/-- Shared helper: if `mainf` returns, the returned matrix is the transposed
Kalman output of the `create_kep` estimate computed on the filtered data. -/
theorem mainf_ok_eq (P : Pipeline) (datafile : String) (window : Nat) (k : Mat)
    (h : mainf P datafile window = Except.ok k) :
    k = np_transpose (P.kalman (P.create_kep (P.golay
        (P.generate_filtered_data (P.load_data datafile) 3) window))) := by
  unfold mainf at h
  simp only [bind, Except.bind, pure, Except.pure] at h
  split at h
  · simp at h
  · split at h
    · simp at h
    · injection h with h
      exact h.symm

/-- C1: whatever `mainf` returns is obtained by applying, in this order,
`load_data`, the triple moving average (window 3), the Savitzky-Golay filter
(`golay`), `create_kep` on the filtered data, `kalman` and `np.transpose`:
the estimate is derived from the smoothed track, never directly from the raw
track. -/
theorem mainf_pipeline_order (P : Pipeline) (datafile : String) (window : Nat) (k : Mat)
    (h : mainf P datafile window = Except.ok k) :
    k = np_transpose (P.kalman (P.create_kep (P.golay
        (P.generate_filtered_data (P.load_data datafile) 3) window))) :=
  mainf_ok_eq P datafile window k h

/-- Witness for C1 at a concrete pipeline and input. -/
theorem mainf_pipeline_order_witness :
    mainf P0 "orbit.csv" 61 = Except.ok [[1], [0], [0], [0], [0], [0]] ∧
    [[(1 : ℚ)], [0], [0], [0], [0], [0]] = np_transpose (P0.kalman (P0.create_kep (P0.golay
        (P0.generate_filtered_data (P0.load_data "orbit.csv") 3) 61))) :=
  ⟨rfl, mainf_pipeline_order P0 "orbit.csv" 61 _ rfl⟩

/-- C2 counterexample: `mainf` calls the plotting blocks before its `return`
statement with no exception handler, so a failure raised inside a rendering
call propagates and `mainf` does not return its estimate. -/
theorem mainf_render_failure_blocks_return :
    mainf Pbad "orbit.csv" 61 = Except.error RenderError.fail := rfl

/-- C2 amended: the Keplerian estimate is computed before any plotting call
and does not depend on the rendering functions, and whenever both rendering
blocks succeed `mainf` returns it; but a rendering failure propagates out of
`mainf` (see the counterexample). -/
theorem mainf_returns_estimate_when_render_ok (P : Pipeline) (datafile : String) (window : Nat)
    (h1 : ∀ a b c, P.render_orbit a b c = Except.ok ())
    (h2 : ∀ a b c, P.render_rv a b c = Except.ok ()) :
    mainf P datafile window = Except.ok (np_transpose (P.kalman (P.create_kep (P.golay
        (P.generate_filtered_data (P.load_data datafile) 3) window)))) := by
  unfold mainf
  simp only [bind, Except.bind, pure, Except.pure, h1, h2]

/-- Witness for the amended C2 at a concrete pipeline and input. -/
theorem mainf_returns_estimate_when_render_ok_witness :
    mainf P0 "orbit.csv" 61 = Except.ok (np_transpose (P0.kalman (P0.create_kep (P0.golay
        (P0.generate_filtered_data (P0.load_data "orbit.csv") 3) 61)))) :=
  mainf_returns_estimate_when_render_ok P0 "orbit.csv" 61
    (fun _ _ _ => rfl) (fun _ _ _ => rfl)

/-- C9: the propagation loop of `mainf` records exactly 20 entries; entry
`i` is `rkf78(6, 0, 100*(i+1), 1, 1e-04, x)` applied to the same initial
state `x` (never advanced between iterations), and `t_hold` holds exactly
the 20 target epochs 100, 200, ..., 2000 in strictly increasing order. -/
theorem mainf_propagation_history (rkf78 : Nat → ℚ → ℚ → ℚ → ℚ → State → State) (x : State) :
    propGo rkf78 x 20 100 =
      [(rkf78 6 0 100 1 (1 / 10000) x, 100), (rkf78 6 0 200 1 (1 / 10000) x, 200),
       (rkf78 6 0 300 1 (1 / 10000) x, 300), (rkf78 6 0 400 1 (1 / 10000) x, 400),
       (rkf78 6 0 500 1 (1 / 10000) x, 500), (rkf78 6 0 600 1 (1 / 10000) x, 600),
       (rkf78 6 0 700 1 (1 / 10000) x, 700), (rkf78 6 0 800 1 (1 / 10000) x, 800),
       (rkf78 6 0 900 1 (1 / 10000) x, 900), (rkf78 6 0 1000 1 (1 / 10000) x, 1000),
       (rkf78 6 0 1100 1 (1 / 10000) x, 1100), (rkf78 6 0 1200 1 (1 / 10000) x, 1200),
       (rkf78 6 0 1300 1 (1 / 10000) x, 1300), (rkf78 6 0 1400 1 (1 / 10000) x, 1400),
       (rkf78 6 0 1500 1 (1 / 10000) x, 1500), (rkf78 6 0 1600 1 (1 / 10000) x, 1600),
       (rkf78 6 0 1700 1 (1 / 10000) x, 1700), (rkf78 6 0 1800 1 (1 / 10000) x, 1800),
       (rkf78 6 0 1900 1 (1 / 10000) x, 1900), (rkf78 6 0 2000 1 (1 / 10000) x, 2000)] ∧
    (propGo rkf78 x 20 100).map Prod.snd =
      [100, 200, 300, 400, 500, 600, 700, 800, 900, 1000,
       1100, 1200, 1300, 1400, 1500, 1600, 1700, 1800, 1900, 2000] ∧
    List.Chain' (· < ·) ((propGo rkf78 x 20 100).map Prod.snd) := by
  refine ⟨?_, ?_, ?_⟩ <;> norm_num [propGo, List.chain'_cons]

/-- C4: on a valid window the Smoother returns a track of the same length
with identical timestamps row by row, so the raw-minus-filtered difference
table formed in `mainf` is well-defined row by row. -/
theorem golay_preserves_length_and_times (fit : List ℚ → ℚ) (track : Track) (w : Nat)
    (out : Track) (h : golay fit track w = Except.ok out) :
    out.length = track.length ∧
    (∀ i, i < track.length → (out.getD i default).t = (track.getD i default).t) ∧
    (dif_rows track out).length = track.length := by
  unfold golay at h
  split at h
  · simp at h
  · injection h with h
    subst h
    refine ⟨by simp, fun i hi => ?_, by simp [dif_rows]⟩
    simp [List.getD_eq_getElem?_getD, List.getElem?_map, List.getElem?_range, hi]

/-- Witness for C4 at a concrete fit kernel, track and window. -/
theorem golay_preserves_length_and_times_witness :
    ([⟨0, 0, 0, 0⟩, ⟨1, 0, 0, 0⟩, ⟨2, 0, 0, 0⟩, ⟨3, 0, 0, 0⟩, ⟨4, 0, 0, 0⟩] : Track).length =
      ([⟨0, 1, 1, 1⟩, ⟨1, 1, 1, 1⟩, ⟨2, 1, 1, 1⟩, ⟨3, 1, 1, 1⟩, ⟨4, 1, 1, 1⟩] : Track).length ∧
    (∀ i, i < ([⟨0, 1, 1, 1⟩, ⟨1, 1, 1, 1⟩, ⟨2, 1, 1, 1⟩, ⟨3, 1, 1, 1⟩, ⟨4, 1, 1, 1⟩] : Track).length →
      (([⟨0, 0, 0, 0⟩, ⟨1, 0, 0, 0⟩, ⟨2, 0, 0, 0⟩, ⟨3, 0, 0, 0⟩, ⟨4, 0, 0, 0⟩] : Track).getD i default).t =
      (([⟨0, 1, 1, 1⟩, ⟨1, 1, 1, 1⟩, ⟨2, 1, 1, 1⟩, ⟨3, 1, 1, 1⟩, ⟨4, 1, 1, 1⟩] : Track).getD i default).t) ∧
    (dif_rows [⟨0, 1, 1, 1⟩, ⟨1, 1, 1, 1⟩, ⟨2, 1, 1, 1⟩, ⟨3, 1, 1, 1⟩, ⟨4, 1, 1, 1⟩]
      [⟨0, 0, 0, 0⟩, ⟨1, 0, 0, 0⟩, ⟨2, 0, 0, 0⟩, ⟨3, 0, 0, 0⟩, ⟨4, 0, 0, 0⟩]).length =
    ([⟨0, 1, 1, 1⟩, ⟨1, 1, 1, 1⟩, ⟨2, 1, 1, 1⟩, ⟨3, 1, 1, 1⟩, ⟨4, 1, 1, 1⟩] : Track).length :=
  golay_preserves_length_and_times (fun _ => 0)
    [⟨0, 1, 1, 1⟩, ⟨1, 1, 1, 1⟩, ⟨2, 1, 1, 1⟩, ⟨3, 1, 1, 1⟩, ⟨4, 1, 1, 1⟩] 5
    [⟨0, 0, 0, 0⟩, ⟨1, 0, 0, 0⟩, ⟨2, 0, 0, 0⟩, ⟨3, 0, 0, 0⟩, ⟨4, 0, 0, 0⟩] rfl

/-- C6: for every window that is even, smaller than 5, or larger than the
track length, the Smoother fails with `InvalidWindow` instead of returning a
smoothed track. -/
theorem golay_invalid_window (fit : List ℚ → ℚ) (track : Track) (w : Nat)
    (h : w % 2 = 0 ∨ w < 5 ∨ track.length < w) :
    golay fit track w = Except.error SmootherError.InvalidWindow := by
  unfold golay
  rw [if_pos h]

/-- Witness for C6 at a concrete even window. -/
theorem golay_invalid_window_witness :
    golay (fun _ => 0) [] 4 = Except.error SmootherError.InvalidWindow :=
  golay_invalid_window (fun _ => 0) [] 4 (Or.inl rfl)

/-- C5: on a successful run `mainf` returns a 6×1 array holding, from top to
bottom, semi-major axis, eccentricity, inclination, argument of perigee,
right ascension of the ascending node and true anomaly, and the display
labels it attaches document a single unit convention: km for the semi-major
axis and degrees for all angles. -/
theorem mainf_output_six_by_one (P : Pipeline) (datafile : String) (window : Nat)
    (ke : KepElements) (k : Mat)
    (hk : P.kalman (P.create_kep (P.golay
        (P.generate_filtered_data (P.load_data datafile) 3) window)) = kep_row ke)
    (h : mainf P datafile window = Except.ok k) :
    k = [[ke.a], [ke.e], [ke.i], [ke.argp], [ke.raan], [ke.v]] ∧
    k.length = 6 ∧ k.map List.length = [1, 1, 1, 1, 1, 1] ∧
    mainf_display_labels =
      [labelled "Semi major axis" "km", labelled "Eccentricity" "float number",
       labelled "Inclination" "degrees", labelled "Argument of perigee" "degrees",
       labelled "Right ascension of the ascending node" "degrees",
       labelled "True anomally" "degrees"] := by
  have hc := mainf_ok_eq P datafile window k h
  rw [hk] at hc
  have hk6 : k = [[ke.a], [ke.e], [ke.i], [ke.argp], [ke.raan], [ke.v]] := hc
  subst hk6
  exact ⟨rfl, rfl, rfl, rfl⟩

/-- Witness for C5 at a concrete pipeline whose Kalman stage returns a known
element row. -/
theorem mainf_output_six_by_one_witness :
    ([[1], [0], [0], [0], [0], [0]] : Mat) = [[(1 : ℚ)], [0], [0], [0], [0], [0]] ∧
    ([[1], [0], [0], [0], [0], [0]] : Mat).length = 6 ∧
    ([[1], [0], [0], [0], [0], [0]] : Mat).map List.length = [1, 1, 1, 1, 1, 1] ∧
    mainf_display_labels =
      [labelled "Semi major axis" "km", labelled "Eccentricity" "float number",
       labelled "Inclination" "degrees", labelled "Argument of perigee" "degrees",
       labelled "Right ascension of the ascending node" "degrees",
       labelled "True anomally" "degrees"] :=
  mainf_output_six_by_one P0 "orbit.csv" 61 ⟨1, 0, 0, 0, 0, 0⟩
    [[1], [0], [0], [0], [0], [0]] rfl rfl

/-- Shared helper: a fold that conditionally emits two items per index is
the bind of the filtered index list. -/
theorem foldr_if_filter {α : Type} (l : List Nat) (p : Nat → Bool) (f g : Nat → α) :
    l.foldr (fun i acc => if p i then f i :: g i :: acc else acc) [] =
    (l.filter p).bind (fun i => [f i, g i]) := by
  induction l with
  | nil => rfl
  | cons a l ih => by_cases h : p a <;> simp [List.filter_cons, h, ih]

/-- C3: the candidate loop of `plot_batch_results` scatters candidate `i`'s
pre-batch and post-batch positions exactly when its error norm is below
100000, in index order, while the `norm_mask` computed with the 5000
threshold has no effect: the output is unchanged under any mask
threshold. -/
theorem plot_batch_results_thresholds (x_sat x_0r x_br x_berr : List Col) (i : Nat) (t : ℚ) :
    plot_batch_results_gen t x_sat x_0r x_br x_berr =
      plot_batch_results x_sat x_0r x_br x_berr ∧
    batch_scatters x_0r x_br x_berr =
      ((List.range x_0r.length).filter (fun j => norm_lt (x_berr.getD j []) 100000)).bind
        (fun j => [Artist.scatterPts [col_xyz (x_0r.getD j [])] "b" 40 "x",
                   Artist.scatterPts [col_xyz (x_br.getD j [])] "r" 20 "o"]) ∧
    (i ∈ (List.range x_0r.length).filter (fun j => norm_lt (x_berr.getD j []) 100000) ↔
      i < x_0r.length ∧ norm_sq (x_berr.getD i []) < 100000 ^ 2) := by
  refine ⟨rfl, foldr_if_filter _ _ _ _, ?_⟩
  simp [List.mem_filter, List.mem_range, norm_lt, and_comm]

/-- C8: for every observer-position array with exactly 2 dimensions,
`plot_example_3d` and `plot_range_range_rate` fail with `TypeError` out of
the axis-less `np.expand_dims` call, before any point is plotted. -/
theorem plot_2d_observer_type_error (x_sat x_obs : NDArray) (t_sec : List ℚ)
    (rrr : NDArray → NDArray → List ℚ × List ℚ)
    (h : x_obs.shape.length = 2) :
    plot_example_3d x_sat x_obs = Except.error PyError.typeError ∧
    plot_range_range_rate rrr x_sat x_obs t_sec = Except.error PyError.typeError := by
  constructor <;>
    simp [plot_example_3d, plot_range_range_rate, h, np_expand_dims, bind, Except.bind]

/-- Witness for C8 at a concrete 2-D observer array. -/
theorem plot_2d_observer_type_error_witness :
    plot_example_3d sat3d obs2d = Except.error PyError.typeError ∧
    plot_range_range_rate (fun _ _ => ([], [])) sat3d obs2d [] =
      Except.error PyError.typeError :=
  plot_2d_observer_type_error sat3d obs2d [] (fun _ _ => ([], [])) rfl

end OrbitDet
